import Mathlib

/-!
Shallow embedding of the IOS HLE IPC dispatch core
(Source/Core/Core/IOS/IPC.cpp and IPC.h) of the surveyed emulator.

The embedding models the descriptor table, the ES session sub-pool, the
device registry, the three pending-operation queues, command dispatch
(OpenDevice / HandleCommand / ExecuteCommand / Update), the reply write-back
(EnqueueReply), the reply-timing adjustment, reset/shutdown, and the
restore path of DoState.  Guest memory reads, the scheduler, and the device
capability implementations are external collaborators of the core; they are
modelled as explicit parameters (an Env record) and as emitted event traces.
-/

namespace IOSHLE

/-- Result codes.  Modelled from the spec: the numeric values live in
Device.h, which is not among the sources; the spec fixes only that success
is 0 and that the listed error codes are distinct negative signed values
(section 6: result/error domain, 0 = success). -/
def IPC_SUCCESS : Int := 0

/-- Modelled from the spec: the invalid-argument error code (negative, distinct). -/
def IPC_EINVAL : Int := -4

/-- Modelled from the spec: the no-such-entity error code (negative, distinct). -/
def IPC_ENOENT : Int := -6

/-- Modelled from the spec: the descriptor-table-exhausted error code
(negative, distinct). -/
def FS_EFDEXHAUSTED : Int := -109

/-- Modelled from the spec: the sessions-exhausted error code for the
content-management device (negative, distinct). -/
def IPC_EESEXHAUSTED : Int := -1016

/-- IPC.cpp line 73: the descriptor-table ceiling, 0x18 = 24 handles. -/
def IPC_MAX_FDS : Nat := 24

/-- IPC.cpp line 74: the bounded ES (content-management) session sub-pool size. -/
def ES_MAX_COUNT : Nat := 3

/-- IPC.h: IPCCommandType values. -/
def IPC_CMD_OPEN : Nat := 1
def IPC_CMD_CLOSE : Nat := 2
def IPC_CMD_READ : Nat := 3
def IPC_CMD_WRITE : Nat := 4
def IPC_CMD_SEEK : Nat := 5
def IPC_CMD_IOCTL : Nat := 6
def IPC_CMD_IOCTLV : Nat := 7

/-- IPC.h: the reply tag written back over the command-kind field. -/
def IPC_REPLY : Nat := 8

/-- IPC.cpp lines 88 and 89: userdata flags selecting the target queue of a
scheduled enqueue event. -/
def ENQUEUE_REQUEST_FLAG : Nat := 0x100000000
def ENQUEUE_ACKNOWLEDGEMENT_FLAG : Nat := 0x200000000

/-- Device kind tag: static registry-owned devices versus ephemeral
per-open FileIO devices (Device.h device types as used by IPC.cpp DoState). -/
inductive DeviceType where
  | staticDev
  | fileIo
deriving DecidableEq

/-- A virtual device as seen by the dispatch core: a stable identifier,
a path-like name, its kind tag, and its opened flag (the part of device
state the core consults through IsOpened). -/
structure Device where
  devId : Nat
  name : String
  devType : DeviceType
  isOpened : Bool
deriving DecidableEq

/-- Ephemeral FileIO device construction, IPC.cpp line 719:
std::make_shared of Device::FileIO with the new fd and the request path. -/
def mkFileIo (fd : Nat) (path : String) : Device :=
  { devId := fd, name := path, devType := DeviceType.fileIo, isOpened := false }

/-- The dispatch-core state owned by IPC.cpp: the fixed descriptor table
s_fdmap (invariant: length IPC_MAX_FDS), the ES session handles
s_es_handles (invariant: length ES_MAX_COUNT), and the device registry
s_device_map listed in ascending identifier order. -/
structure IPCState where
  fdmap : List (Option Device)
  esHandles : List Device
  registry : List Device
deriving DecidableEq

/-- IPCCommandResult, IPC.h lines 28 to 33. -/
structure IPCCommandResult where
  return_value : Int
  send_reply : Bool
  reply_delay_ticks : Nat
deriving DecidableEq

/-- Modelled from the spec: the default no-payload reply constructor
(Device.h GetDefaultReply, not among the sources).  It requests a reply
with a fixed default latency; no claim depends on the latency value. -/
def defaultReplyDelayTicks : Nat := 0

/-- Modelled from the spec: GetDefaultReply wraps a return value into a
result that sends a reply after the default latency. -/
def GetDefaultReply (return_value : Int) : IPCCommandResult :=
  { return_value := return_value, send_reply := true,
    reply_delay_ticks := defaultReplyDelayTicks }

/-- A parsed request block (Device.h Request / OpenRequest, parsed from
guest memory at the given address; the parse itself is external to IPC.cpp).
The path field is only meaningful for open commands. -/
structure Request where
  address : Nat
  command : Nat
  fd : Nat
  path : String
deriving DecidableEq

/-- Record of a device-capability invocation made by the dispatch core. -/
inductive CapCall where
  | openCall (name : String)
  | closeCall (name : String)
  | readCall (name : String)
  | writeCall (name : String)
  | seekCall (name : String)
  | ioctlCall (name : String)
  | ioctlvCall (name : String)
deriving DecidableEq

/-- IPC.cpp GetFreeDeviceID helper: index of the first empty slot.
The C++ loop scans indices 0 .. IPC_MAX_FDS-1 in order. -/
def firstFreeIdx : List (Option Device) → Option Nat
  | [] => none
  | none :: _ => some 0
  | some _ :: rest => (firstFreeIdx rest).map (· + 1)

/-- IPC.cpp lines 569 to 580: GetFreeDeviceID returns the first free index
or -1 when every slot is occupied. -/
def GetFreeDeviceID (fdmap : List (Option Device)) : Int :=
  match firstFreeIdx fdmap with
  | some i => (i : Int)
  | none => -1

/-- Number of free descriptor-table slots. -/
def freeSlots (fdmap : List (Option Device)) : Nat :=
  fdmap.countP (fun o => o.isNone)

/-- IPC.cpp lines 582 to 594: GetDeviceByName scans the registry in
identifier order for a matching name. -/
def GetDeviceByName (registry : List Device) (device_name : String) : Option Device :=
  registry.find? (fun d => d.name = device_name)

/-- IPC.cpp lines 596 to 605: AccessDeviceByID looks a device up by its
registry identifier. -/
def AccessDeviceByID (registry : List Device) (id : Nat) : Option Device :=
  registry.find? (fun d => d.devId = id)

/-- IPC.cpp lines 688 to 693: GetUnusedESDevice returns the first ES
session handle that is not currently opened. -/
def GetUnusedESDevice (esHandles : List Device) : Option Device :=
  esHandles.find? (fun d => !d.isOpened)

/-- Prefix test on strings, by character list: models the C++ idiom
path.find(p) == 0 used in OpenDevice. -/
def strStartsWith (s p : String) : Bool := p.data.isPrefixOf s.data

/-- The device-resolution chain of OpenDevice, IPC.cpp lines 706 to 720:
the content-management path goes to the ES sub-pool, other /dev/ paths to
the registry, absolute filesystem paths to a fresh ephemeral FileIO device. -/
def resolveDevice (st : IPCState) (path : String) (newFd : Nat) : Option Device :=
  if path = "/dev/es" then GetUnusedESDevice st.esHandles
  else if strStartsWith path "/dev/" then GetDeviceByName st.registry path
  else if strStartsWith path "/" then some (mkFileIo newFd path)
  else none

/-- IPC.cpp lines 696 to 733: OpenDevice.  Returns the new fd or an error
code, the updated state, and the capability calls made.  The C++ early
return of IPC_EESEXHAUSTED inside the /dev/es branch is expressed here by
disambiguating the failed resolution on the path; the outcomes coincide. -/
def OpenDevice (st : IPCState) (path : String) (openCode : Int) :
    Int × IPCState × List CapCall :=
  let newFd := GetFreeDeviceID st.fdmap
  if newFd < 0 ∨ (IPC_MAX_FDS : Int) ≤ newFd then (FS_EFDEXHAUSTED, st, [])
  else
    match resolveDevice st path newFd.toNat with
    | none =>
        if path = "/dev/es" then (IPC_EESEXHAUSTED, st, [])
        else (IPC_ENOENT, st, [])
    | some d =>
        if openCode < IPC_SUCCESS then (openCode, st, [CapCall.openCall d.name])
        else (newFd, { st with fdmap := st.fdmap.set newFd.toNat (some d) },
              [CapCall.openCall d.name])

/-- The descriptor lookup of HandleCommand, IPC.cpp line 744: the slot for
fd when fd is in range, nullptr otherwise. -/
def fdLookup (st : IPCState) (fd : Nat) : Option Device :=
  if fd < IPC_MAX_FDS then st.fdmap.getD fd none else none

/-- Output of HandleCommand: the command result, the updated state, the
capability calls made, and whether the programming-error assertion of the
default switch branch fired. -/
structure HCOut where
  result : IPCCommandResult
  state : IPCState
  calls : List CapCall
  assertFailed : Bool
deriving DecidableEq

/-- IPC.cpp lines 735 to 768: HandleCommand.  openCode is the return code
of the resolved device Open capability (external collaborator); cap gives
the result of the other device capabilities, per device and command. -/
def HandleCommand (st : IPCState) (openCode : Int)
    (cap : Device → Nat → IPCCommandResult) (req : Request) : HCOut :=
  if req.command = IPC_CMD_OPEN then
    let r := OpenDevice st req.path openCode
    { result := GetDefaultReply r.1, state := r.2.1, calls := r.2.2,
      assertFailed := false }
  else
    match fdLookup st req.fd with
    | none =>
        { result := GetDefaultReply IPC_EINVAL, state := st, calls := [],
          assertFailed := false }
    | some d =>
        if req.command = IPC_CMD_CLOSE then
          { result := GetDefaultReply IPC_SUCCESS,
            state := { st with fdmap := st.fdmap.set req.fd none },
            calls := [CapCall.closeCall d.name], assertFailed := false }
        else if req.command = IPC_CMD_READ then
          { result := cap d IPC_CMD_READ, state := st,
            calls := [CapCall.readCall d.name], assertFailed := false }
        else if req.command = IPC_CMD_WRITE then
          { result := cap d IPC_CMD_WRITE, state := st,
            calls := [CapCall.writeCall d.name], assertFailed := false }
        else if req.command = IPC_CMD_SEEK then
          { result := cap d IPC_CMD_SEEK, state := st,
            calls := [CapCall.seekCall d.name], assertFailed := false }
        else if req.command = IPC_CMD_IOCTL then
          { result := cap d IPC_CMD_IOCTL, state := st,
            calls := [CapCall.ioctlCall d.name], assertFailed := false }
        else if req.command = IPC_CMD_IOCTLV then
          { result := cap d IPC_CMD_IOCTLV, state := st,
            calls := [CapCall.ioctlvCall d.name], assertFailed := false }
        else
          { result := GetDefaultReply IPC_EINVAL, state := st, calls := [],
            assertFailed := true }

/-- The full pending-operation state of the core: the dispatch state plus
the three FIFO queues of raw addresses and the last-reply completion tick
s_last_reply_time. -/
structure SysState where
  ipc : IPCState
  requestQueue : List Nat
  replyQueue : List Nat
  ackQueue : List Nat
  lastReplyTime : Nat
deriving DecidableEq

/-- External collaborators of one dispatch: the guest-memory reads that the
Request constructor performs (command word at the address, fd word, and the
parsed open path), the current emulated tick of the scheduler, and the
device capability results. -/
structure Env where
  readCmd : Nat → Nat
  readFd : Nat → Nat
  readPath : Nat → String
  now : Nat
  openCode : Int
  cap : Device → Nat → IPCCommandResult

/-- Request construction from guest memory (Device.h Request constructor,
reads performed at the given address; the address field always echoes the
construction address). -/
def parseRequest (env : Env) (address : Nat) : Request :=
  { address := address, command := env.readCmd address,
    fd := env.readFd address, path := env.readPath address }

/-- Externally observable actions emitted by the core: notifications raised
through the IPC hardware interface (GenerateAck / GenerateReply), guest
memory writes, and events handed to the scheduler (ScheduleEvent with a
cycle delay and a userdata word). -/
inductive Ev where
  | genAck (address : Nat)
  | genReply (address : Nat)
  | memWrite (address : Nat) (value : Nat)
  | schedule (cyclesInFuture : Nat) (userdata : Nat)
deriving DecidableEq

/-- Truncation of a signed return value to the u32 written into guest
memory. -/
def u32ofInt (v : Int) : Nat := (v % (2 ^ 32)).toNat

/-- IPC.cpp line 776: ticks_until_last_reply, the signed difference between
the last scheduled reply completion tick and the current tick. -/
def ticksUntilLastReply (last now : Nat) : Int := (last : Int) - (now : Int)

/-- IPC.cpp lines 776 to 778: the reply delay after the ordering
adjustment; when the last reply completes in the future the delay is
inflated by exactly that remaining time. -/
def adjustedReplyDelay (last now delay : Nat) : Nat :=
  if 0 < ticksUntilLastReply last now then delay + (last - now) else delay

/-- IPC.cpp line 779: the completion tick recorded into s_last_reply_time,
current tick plus the adjusted delay. -/
def completionTick (last now delay : Nat) : Nat :=
  now + adjustedReplyDelay last now delay

/-- The sequence of completion ticks produced by a sequence of dispatches,
each dispatch given as (current tick, requested reply delay); the recorded
last-reply time threads through exactly as in ExecuteCommand. -/
def replyCompletions (last : Nat) : List (Nat × Nat) → List Nat
  | [] => []
  | d :: rest =>
      completionTick last d.1 d.2 :: replyCompletions (completionTick last d.1 d.2) rest

/-- IPC.cpp lines 792 to 801: EnqueueReply performs the guest-visible
write-back immediately (return value at address + 4, echoed command at
address + 8, reply tag over the command field at address + 0) and then
schedules the insertion of the bare address, deferred by the given delay. -/
def EnqueueReply (request : Request) (return_value : Int) (cycles_in_future : Nat) :
    List Ev :=
  [Ev.memWrite (request.address + 4) (u32ofInt return_value),
   Ev.memWrite (request.address + 8) request.command,
   Ev.memWrite request.address IPC_REPLY,
   Ev.schedule cycles_in_future request.address]

/-- IPC.cpp lines 786 to 789: EnqueueRequest schedules the address tagged
with the request flag after a fixed 1000-cycle latency. -/
def EnqueueRequest (address : Nat) : List Ev :=
  [Ev.schedule 1000 (address ||| ENQUEUE_REQUEST_FLAG)]

/-- IPC.cpp lines 803 to 807: EnqueueCommandAcknowledgement schedules the
address tagged with the acknowledgement flag. -/
def EnqueueCommandAcknowledgement (address : Nat) (cycles_in_future : Nat) : List Ev :=
  [Ev.schedule cycles_in_future (address ||| ENQUEUE_ACKNOWLEDGEMENT_FLAG)]

/-- IPC.cpp lines 390 to 405: the queue-selection part of EnqueueEvent, the
scheduler callback that a ScheduleEvent fires: the userdata flags pick the
queue and the truncated u32 address is pushed at the back.  The trailing
Update call of the C++ callback is the drain step modelled by Update. -/
def EnqueueEventPush (st : SysState) (userdata : Nat) : SysState :=
  if userdata &&& ENQUEUE_ACKNOWLEDGEMENT_FLAG ≠ 0 then
    { st with ackQueue := st.ackQueue ++ [userdata % 2 ^ 32] }
  else if userdata &&& ENQUEUE_REQUEST_FLAG ≠ 0 then
    { st with requestQueue := st.requestQueue ++ [userdata % 2 ^ 32] }
  else
    { st with replyQueue := st.replyQueue ++ [userdata % 2 ^ 32] }

/-- IPC.cpp lines 770 to 783: ExecuteCommand parses the request, obtains
the command result, adjusts the reply delay so completion times never move
backwards, records the new last-reply time, and, when a reply is wanted,
performs EnqueueReply with the adjusted delay. -/
def ExecuteCommand (env : Env) (st : SysState) (address : Nat) : SysState × List Ev :=
  let request := parseRequest env address
  let out := HandleCommand st.ipc env.openCode env.cap request
  let delay := adjustedReplyDelay st.lastReplyTime env.now out.result.reply_delay_ticks
  let st2 := { st with ipc := out.state, lastReplyTime := env.now + delay }
  if out.result.send_reply then
    (st2, EnqueueReply request out.result.return_value delay)
  else (st2, [])

/-- IPC.cpp lines 811 to 841: Update.  With the core ready it serves at
most one queue entry, requests first (acknowledge, pop, execute), then
replies (notify, pop), then stray acknowledgements (notify, pop). -/
def Update (ready : Bool) (env : Env) (st : SysState) : SysState × List Ev :=
  if ready = false then (st, [])
  else
    match st.requestQueue with
    | address :: rest =>
        let r := ExecuteCommand env { st with requestQueue := rest } address
        (r.1, Ev.genAck address :: r.2)
    | [] =>
      match st.replyQueue with
      | address :: rest => ({ st with replyQueue := rest }, [Ev.genReply address])
      | [] =>
        match st.ackQueue with
        | address :: rest => ({ st with ackQueue := rest }, [Ev.genAck address])
        | [] => (st, [])

/-- IPC.cpp lines 519 to 542: Reset closes and clears every open
descriptor in slot order, destroys the registry when hard, clears the
request and reply queues, and zeroes the last-reply time.  The
acknowledgement queue and the ES handle array are not touched.  The
RemoveAllEvents call on the scheduler is external and not modelled. -/
def Reset (hard : Bool) (st : SysState) : SysState × List CapCall :=
  let closes := st.ipc.fdmap.filterMap (fun o => o.map (fun d => CapCall.closeCall d.name))
  ({ st with
      ipc := { st.ipc with
                 fdmap := st.ipc.fdmap.map (fun _ => none),
                 registry := if hard then [] else st.ipc.registry },
      requestQueue := [],
      replyQueue := [],
      lastReplyTime := 0 },
   closes)

/-- IPC.cpp lines 544 to 547: Shutdown is Reset with hard = true. -/
def Shutdown (st : SysState) : SysState × List CapCall := Reset true st

/-- One serialized descriptor-table slot in the save-state stream: a
presence flag, and for present slots the device-type discriminator with
either the registry identifier (static) or the inline device state
(FileIO; its inline state is abstracted to the path). -/
inductive SavedSlot where
  | emptySlot
  | staticDev (devId : Nat)
  | fileIo (path : String)
deriving DecidableEq

/-- Steps of DoState in stream order, recorded as an event trace:
PrepareForState on an open descriptor, the registry-wide per-device
DoState hook, the reconstruction of a descriptor-table slot binding, and
the reconstruction of an ES sub-pool binding. -/
inductive DSEvent where
  | prepare (slot : Nat)
  | deviceHook (devId : Nat)
  | restoreSlot (slot : Nat)
  | restoreES (idx : Nat)
deriving DecidableEq

def DSEvent.isHook : DSEvent → Bool
  | DSEvent.deviceHook _ => true
  | _ => false

def DSEvent.isRestoreSlot : DSEvent → Bool
  | DSEvent.restoreSlot _ => true
  | _ => false

/-- IPC.cpp lines 615 to 619: PrepareForState runs on every currently
bound descriptor, in slot order. -/
def prepareEvents (fdmap : List (Option Device)) : List DSEvent :=
  fdmap.enum.filterMap (fun p =>
    match p.2 with
    | some _ => some (DSEvent.prepare p.1)
    | none => none)

/-- IPC.cpp lines 621 to 622: every registry device runs its own DoState
hook, in registry (identifier) order. -/
def hookEvents (registry : List Device) : List DSEvent :=
  registry.map (fun d => DSEvent.deviceHook d.devId)

/-- IPC.cpp lines 626 to 649 (restore mode): a slot-binding reconstruction
event for every present saved slot, in slot order. -/
def restoreEvents (saved : List SavedSlot) : List DSEvent :=
  saved.enum.filterMap (fun p =>
    match p.2 with
    | SavedSlot.emptySlot => none
    | SavedSlot.staticDev _ => some (DSEvent.restoreSlot p.1)
    | SavedSlot.fileIo _ => some (DSEvent.restoreSlot p.1))

/-- IPC.cpp lines 651 to 656 (restore mode): the ES sub-pool bindings are
re-resolved in slot order. -/
def esRestoreEvents (savedES : List Nat) : List DSEvent :=
  savedES.enum.map (fun p => DSEvent.restoreES p.1)

/-- The descriptor table rebuilt by the restore loop: static slots are
re-resolved through AccessDeviceByID, FileIO slots are rebuilt at their
slot index from the inline state. -/
def restoredFdmap (registry : List Device) (saved : List SavedSlot) :
    List (Option Device) :=
  saved.enum.map (fun p =>
    match p.2 with
    | SavedSlot.emptySlot => none
    | SavedSlot.staticDev id => AccessDeviceByID registry id
    | SavedSlot.fileIo path => some (mkFileIo p.1 path))

/-- The ES sub-pool rebuilt by the restore loop, each identifier
re-resolved through AccessDeviceByID. -/
def restoredESHandles (registry : List Device) (savedES : List Nat) :
    List (Option Device) :=
  savedES.map (fun id => AccessDeviceByID registry id)

/-- IPC.cpp lines 607 to 686, restore (MODE_READ) direction: the ordered
event trace of DoState.  The queue and last-reply-time loads emit no
events; then PrepareForState runs over the pre-restore descriptor table,
then every registry device hook, then the descriptor-slot reconstruction,
then the ES sub-pool reconstruction. -/
def DoStateReadEvents (st : IPCState) (saved : List SavedSlot) (savedES : List Nat) :
    List DSEvent :=
  prepareEvents st.fdmap ++ hookEvents st.registry ++
    restoreEvents saved ++ esRestoreEvents savedES

/-- The full restore result: the rebuilt descriptor table, the rebuilt ES
sub-pool, and the ordered event trace. -/
def DoStateRead (st : IPCState) (saved : List SavedSlot) (savedES : List Nat) :
    List (Option Device) × List (Option Device) × List DSEvent :=
  (restoredFdmap st.registry saved, restoredESHandles st.registry savedES,
   DoStateReadEvents st saved savedES)

/-- A static registry device used by concrete instances. -/
def fsDev : Device :=
  { devId := 3, name := "/dev/fs", devType := DeviceType.staticDev, isOpened := false }

/-- An ES session device flagged as currently opened. -/
def esOpenDev (i : Nat) : Device :=
  { devId := 4 + i, name := "/dev/es", devType := DeviceType.staticDev, isOpened := true }

/-- An empty dispatch state: 24 free slots, no ES handles, empty registry. -/
def ipcEmpty : IPCState :=
  { fdmap := List.replicate IPC_MAX_FDS none, esHandles := [], registry := [] }

/-- A dispatch state with an all-free table and a one-device registry. -/
def stFS : IPCState :=
  { fdmap := List.replicate IPC_MAX_FDS none, esHandles := [], registry := [fsDev] }

/-- A dispatch state whose 24 slots are all occupied. -/
def stFull : IPCState :=
  { fdmap := List.replicate IPC_MAX_FDS (some fsDev), esHandles := [], registry := [fsDev] }

/-- A dispatch state with free table slots but all 3 ES sessions in use. -/
def stEsBusy : IPCState :=
  { fdmap := List.replicate IPC_MAX_FDS none,
    esHandles := [esOpenDev 0, esOpenDev 1, esOpenDev 2], registry := [fsDev] }

/-- A dispatch state with a full table and all ES sessions in use. -/
def stFullEsBusy : IPCState :=
  { fdmap := List.replicate IPC_MAX_FDS (some fsDev),
    esHandles := [esOpenDev 0, esOpenDev 1, esOpenDev 2], registry := [fsDev] }

/-- A capability table returning the default success reply everywhere. -/
def capZero : Device → Nat → IPCCommandResult := fun _ _ => GetDefaultReply 0

/-- A concrete external environment for witnesses. -/
def envZero : Env :=
  { readCmd := fun _ => IPC_CMD_CLOSE, readFd := fun _ => 0, readPath := fun _ => "",
    now := 0, openCode := 0, cap := capZero }

/-- An empty full-system state. -/
def sysEmpty : SysState :=
  { ipc := ipcEmpty, requestQueue := [], replyQueue := [], ackQueue := [],
    lastReplyTime := 0 }

/-- System state with one pending request. -/
def sysReq : SysState := { sysEmpty with requestQueue := [100] }

/-- System state with one pending reply. -/
def sysRep : SysState := { sysEmpty with replyQueue := [200] }

/-- System state with one pending acknowledgement. -/
def sysAck : SysState := { sysEmpty with ackQueue := [300] }

/-- System state with a non-empty acknowledgement queue and last-reply time. -/
def sysAckPending : SysState :=
  { ipc := stFull, requestQueue := [], replyQueue := [], ackQueue := [4096],
    lastReplyTime := 7 }

/-- A close request against a handle that is out of range (and hence not open). -/
def reqCloseUnopened : Request :=
  { address := 0, command := IPC_CMD_CLOSE, fd := 30, path := "" }

/-- A request with a command kind outside the defined set, against an
unmapped handle. -/
def reqBadCmdNoFd : Request :=
  { address := 0, command := 9, fd := 0, path := "" }

/-- Concrete restore input: a one-device registry and one saved static slot. -/
def dsSaved : List SavedSlot := [SavedSlot.staticDev 3]

/-- Helper lemmas about the descriptor-table free-slot scan. -/
theorem firstFreeIdx_eq_none_iff (l : List (Option Device)) :
    firstFreeIdx l = none ↔ freeSlots l = 0 := by
  induction l with
  | nil => simp [firstFreeIdx, freeSlots]
  | cons x rest ih =>
      cases x with
      | none => simp [firstFreeIdx, freeSlots, List.countP_cons]
      | some d =>
          have hfsf : firstFreeIdx (some d :: rest) = (firstFreeIdx rest).map (· + 1) := rfl
          have hcount : freeSlots (some d :: rest) = freeSlots rest := by
            simp [freeSlots, List.countP_cons]
          rw [hfsf, hcount, ← ih]
          cases firstFreeIdx rest <;> simp

theorem firstFreeIdx_spec (l : List (Option Device)) (i : Nat)
    (h : firstFreeIdx l = some i) : i < l.length ∧ l[i]? = some none := by
  induction l generalizing i with
  | nil => simp [firstFreeIdx] at h
  | cons x rest ih =>
      cases x with
      | none =>
          simp [firstFreeIdx] at h
          subst h
          simp
      | some d =>
          have hfsf : firstFreeIdx (some d :: rest) = (firstFreeIdx rest).map (· + 1) := rfl
          rw [hfsf] at h
          cases hr : firstFreeIdx rest with
          | none => rw [hr] at h; simp at h
          | some j =>
              rw [hr] at h
              simp at h
              subst h
              obtain ⟨h1, h2⟩ := ih j hr
              refine ⟨by simpa using Nat.succ_lt_succ h1, ?_⟩
              simpa using h2

theorem freeSlots_set_occupied (l : List (Option Device)) (i : Nat) (d : Device)
    (h : l[i]? = some none) :
    freeSlots (l.set i (some d)) + 1 = freeSlots l := by
  induction l generalizing i with
  | nil => simp at h
  | cons x rest ih =>
      cases i with
      | zero =>
          simp at h
          subst h
          simp [freeSlots, List.countP_cons]
      | succ n =>
          simp at h
          have := ih n h
          unfold freeSlots at this ⊢
          simp [List.countP_cons, List.set]
          omega

/-- The reply-timing step never moves the recorded completion tick
backwards. -/
theorem le_completionTick (last now delay : Nat) :
    last ≤ completionTick last now delay := by
  unfold completionTick adjustedReplyDelay ticksUntilLastReply
  split <;> omega

/-- The completion ticks of a dispatch sequence form a non-decreasing
chain from any starting last-reply time. -/
theorem chain_replyCompletions (last : Nat) (ds : List (Nat × Nat)) :
    List.Chain' (· ≤ ·) (last :: replyCompletions last ds) := by
  induction ds generalizing last with
  | nil => simp [replyCompletions]
  | cons d rest ih =>
      rw [replyCompletions, List.chain'_cons]
      exact ⟨le_completionTick last d.1 d.2, ih _⟩

/-- ExecuteCommand never touches the three queues directly; the reply
insertion goes through the scheduler. -/
theorem executeCommand_queues (env : Env) (st : SysState) (address : Nat) :
    (ExecuteCommand env st address).1.requestQueue = st.requestQueue ∧
    (ExecuteCommand env st address).1.replyQueue = st.replyQueue ∧
    (ExecuteCommand env st address).1.ackQueue = st.ackQueue := by
  unfold ExecuteCommand
  dsimp only
  split <;> exact ⟨rfl, rfl, rfl⟩

/-- C1: for every sequence of dispatched commands the completion ticks
recorded in the last-reply-time state are monotonically non-decreasing in
dispatch order; whenever the unadjusted completion tick (current tick plus
requested delay) would land before the last scheduled completion tick, the
delay is inflated by exactly the remaining difference; and ExecuteCommand
records exactly this completion tick. -/
theorem executeCommand_reply_ordering (last : Nat) (ds : List (Nat × Nat)) :
    List.Chain' (· ≤ ·) (last :: replyCompletions last ds) ∧
    (∀ l n delay : Nat, n + delay < l →
      adjustedReplyDelay l n delay = delay + (l - n)) ∧
    (∀ (env : Env) (st : SysState) (address : Nat),
      (ExecuteCommand env st address).1.lastReplyTime =
        completionTick st.lastReplyTime env.now
          (HandleCommand st.ipc env.openCode env.cap
            (parseRequest env address)).result.reply_delay_ticks) := by
  refine ⟨chain_replyCompletions last ds, ?_, ?_⟩
  · intro l n delay h
    unfold adjustedReplyDelay ticksUntilLastReply
    split <;> omega
  · intro env st address
    unfold ExecuteCommand completionTick
    dsimp only
    split <;> rfl

/-- Witness for C1 at concrete inputs. -/
theorem executeCommand_reply_ordering_witness :
    List.Chain' (· ≤ ·) (5 :: replyCompletions 5 [(0, 2), (10, 0)]) ∧
    adjustedReplyDelay 9 3 1 = 1 + (9 - 3) :=
  ⟨(executeCommand_reply_ordering 5 [(0, 2), (10, 0)]).1,
   (executeCommand_reply_ordering 0 []).2.1 9 3 1 (by decide)⟩

/-- C2: with the core ready, Update serves exactly one queue entry per
call, with fixed priority requests, then replies, then acknowledgements;
a popped request is acknowledged at its own address and then executed, and
the other queues are untouched; with all queues empty Update does nothing. -/
theorem update_one_entry_fixed_priority (env : Env) (st : SysState) :
    (∀ a rest, st.requestQueue = a :: rest →
      Update true env st =
        ((ExecuteCommand env { st with requestQueue := rest } a).1,
         Ev.genAck a :: (ExecuteCommand env { st with requestQueue := rest } a).2) ∧
      (Update true env st).1.requestQueue = rest ∧
      (Update true env st).1.replyQueue = st.replyQueue ∧
      (Update true env st).1.ackQueue = st.ackQueue) ∧
    (∀ a rest, st.requestQueue = [] → st.replyQueue = a :: rest →
      Update true env st = ({ st with replyQueue := rest }, [Ev.genReply a])) ∧
    (∀ a rest, st.requestQueue = [] → st.replyQueue = [] → st.ackQueue = a :: rest →
      Update true env st = ({ st with ackQueue := rest }, [Ev.genAck a])) ∧
    (st.requestQueue = [] → st.replyQueue = [] → st.ackQueue = [] →
      Update true env st = (st, [])) := by
  refine ⟨?_, ?_, ?_, ?_⟩
  · intro a rest h
    obtain ⟨h1, h2, h3⟩ := executeCommand_queues env { st with requestQueue := rest } a
    refine ⟨by simp [Update, h], ?_, ?_, ?_⟩ <;> simp [Update, h, h1, h2, h3]
  · intro a rest h1 h2
    simp [Update, h1, h2]
  · intro a rest h1 h2 h3
    simp [Update, h1, h2, h3]
  · intro h1 h2 h3
    simp [Update, h1, h2, h3]

/-- Witness for C2: the four priority cases at concrete states. -/
theorem update_one_entry_fixed_priority_witness :
    (Update true envZero sysReq =
      ((ExecuteCommand envZero { sysReq with requestQueue := [] } 100).1,
       Ev.genAck 100 :: (ExecuteCommand envZero { sysReq with requestQueue := [] } 100).2) ∧
      (Update true envZero sysReq).1.requestQueue = [] ∧
      (Update true envZero sysReq).1.replyQueue = sysReq.replyQueue ∧
      (Update true envZero sysReq).1.ackQueue = sysReq.ackQueue) ∧
    Update true envZero sysRep = ({ sysRep with replyQueue := [] }, [Ev.genReply 200]) ∧
    Update true envZero sysAck = ({ sysAck with ackQueue := [] }, [Ev.genAck 300]) ∧
    Update true envZero sysEmpty = (sysEmpty, []) :=
  ⟨(update_one_entry_fixed_priority envZero sysReq).1 100 [] rfl,
   (update_one_entry_fixed_priority envZero sysRep).2.1 200 [] rfl rfl,
   (update_one_entry_fixed_priority envZero sysAck).2.2.1 300 [] rfl rfl rfl,
   (update_one_entry_fixed_priority envZero sysEmpty).2.2.2 rfl rfl rfl⟩

/-- C3 counterexample: closing an unopened handle does NOT return the
success result code; at a concrete state with nothing open the close
dispatch returns the invalid-argument code, which is distinct from
success. -/
theorem close_unopened_not_success_counterexample :
    (HandleCommand ipcEmpty 0 capZero reqCloseUnopened).result.return_value = IPC_EINVAL ∧
    IPC_EINVAL ≠ IPC_SUCCESS := by
  refine ⟨rfl, by decide⟩

/-- C3 amended: for every handle whose descriptor-table slot is not open
(including out-of-range handles), dispatching a close command is a no-op
that returns the invalid-argument code IPC_EINVAL (not success), never
invokes any device capability, and leaves the descriptor table unchanged. -/
theorem close_unopened_noop_einval (st : IPCState) (openCode : Int)
    (cap : Device → Nat → IPCCommandResult) (req : Request)
    (hcmd : req.command = IPC_CMD_CLOSE)
    (hclosed : fdLookup st req.fd = none) :
    HandleCommand st openCode cap req =
      { result := GetDefaultReply IPC_EINVAL, state := st, calls := [],
        assertFailed := false } := by
  unfold HandleCommand
  rw [hcmd, hclosed]
  simp [IPC_CMD_CLOSE, IPC_CMD_OPEN]

/-- Witness for C3 amended at a concrete out-of-range handle. -/
theorem close_unopened_noop_einval_witness :
    HandleCommand ipcEmpty 0 capZero reqCloseUnopened =
      { result := GetDefaultReply IPC_EINVAL, state := ipcEmpty, calls := [],
        assertFailed := false } :=
  close_unopened_noop_einval ipcEmpty 0 capZero reqCloseUnopened rfl (by decide)

/-- C5: with k free slots (k at least 1) and a path that resolves to a
device whose open capability accepts, OpenDevice returns a non-negative
handle and decreases the free-slot count by exactly 1; with k = 0 it
fails with the descriptor-table-exhausted code and leaves the state
unchanged. -/
theorem openDevice_free_slot_accounting (st : IPCState) (path : String) (openCode : Int)
    (hlen : st.fdmap.length = IPC_MAX_FDS) :
    (∀ k, freeSlots st.fdmap = k → 1 ≤ k →
      (∀ fd, ∃ d, resolveDevice st path fd = some d) →
      0 ≤ openCode →
      0 ≤ (OpenDevice st path openCode).1 ∧
      freeSlots (OpenDevice st path openCode).2.1.fdmap + 1 = k) ∧
    (freeSlots st.fdmap = 0 →
      OpenDevice st path openCode = (FS_EFDEXHAUSTED, st, [])) := by
  constructor
  · intro k hk hk1 hres hoc
    cases hf : firstFreeIdx st.fdmap with
    | none =>
        rw [firstFreeIdx_eq_none_iff] at hf
        omega
    | some i =>
        obtain ⟨hilt, hislot⟩ := firstFreeIdx_spec st.fdmap i hf
        have hgf : GetFreeDeviceID st.fdmap = (i : Int) := by
          unfold GetFreeDeviceID
          rw [hf]
        have hguard : ¬(GetFreeDeviceID st.fdmap < 0 ∨
            (IPC_MAX_FDS : Int) ≤ GetFreeDeviceID st.fdmap) := by
          rw [hgf]
          rw [hlen] at hilt
          push_neg
          constructor
          · exact Int.ofNat_nonneg i
          · exact_mod_cast hilt
        obtain ⟨d, hd⟩ := hres i
        have htoNat : (GetFreeDeviceID st.fdmap).toNat = i := by
          rw [hgf]; rfl
        have hopen : OpenDevice st path openCode =
            ((i : Int), { st with fdmap := st.fdmap.set i (some d) },
             [CapCall.openCall d.name]) := by
          unfold OpenDevice
          rw [if_neg hguard, htoNat, hd, hgf]
          show (if openCode < IPC_SUCCESS then (openCode, st, [CapCall.openCall d.name])
                else ((i : Int), { st with fdmap := st.fdmap.set i (some d) },
                      [CapCall.openCall d.name])) = _
          rw [if_neg (by unfold IPC_SUCCESS; omega)]
        rw [hopen]
        refine ⟨Int.ofNat_nonneg i, ?_⟩
        dsimp only
        rw [freeSlots_set_occupied st.fdmap i d hislot]
        exact hk
  · intro hk
    have hf : firstFreeIdx st.fdmap = none := (firstFreeIdx_eq_none_iff st.fdmap).2 hk
    unfold OpenDevice
    have hgf : GetFreeDeviceID st.fdmap = -1 := by
      unfold GetFreeDeviceID
      rw [hf]
    rw [hgf]
    simp

/-- In the one-device concrete state, the /dev/fs path resolves to the
registry device for any candidate fd. -/
theorem resolveDevice_stFS_fs (fd : Nat) :
    resolveDevice stFS "/dev/fs" fd = some fsDev := by
  unfold resolveDevice
  rw [if_neg (by decide)]
  rw [if_pos (by decide)]
  decide

/-- Witness for C5: a successful registry open on an all-free table, and
the exhausted failure on a full table. -/
theorem openDevice_free_slot_accounting_witness :
    (0 ≤ (OpenDevice stFS "/dev/fs" 0).1 ∧
      freeSlots (OpenDevice stFS "/dev/fs" 0).2.1.fdmap + 1 = 24) ∧
    OpenDevice stFull "/a" 0 = (FS_EFDEXHAUSTED, stFull, []) :=
  ⟨(openDevice_free_slot_accounting stFS "/dev/fs" 0 rfl).1 24 (by decide) (by decide)
      (fun fd => ⟨fsDev, resolveDevice_stFS_fs fd⟩) (by decide),
   (openDevice_free_slot_accounting stFull "/a" 0 rfl).2 (by decide)⟩

/-- C6: when all 3 reserved ES sessions are in use, opening the
content-management device fails with the distinct sessions-exhausted code
even though general slots remain free, and the state (general table and
session sub-pool alike) is unchanged. -/
theorem openDevice_es_sessions_exhausted (st : IPCState) (openCode : Int)
    (hlen : st.fdmap.length = IPC_MAX_FDS)
    (hfree : 1 ≤ freeSlots st.fdmap)
    (hes : ∀ d ∈ st.esHandles, d.isOpened = true) :
    OpenDevice st "/dev/es" openCode = (IPC_EESEXHAUSTED, st, []) ∧
    IPC_EESEXHAUSTED ≠ FS_EFDEXHAUSTED := by
  refine ⟨?_, by decide⟩
  cases hf : firstFreeIdx st.fdmap with
  | none =>
      rw [firstFreeIdx_eq_none_iff] at hf
      omega
  | some i =>
      obtain ⟨hilt, _⟩ := firstFreeIdx_spec st.fdmap i hf
      have hgf : GetFreeDeviceID st.fdmap = (i : Int) := by
        unfold GetFreeDeviceID
        rw [hf]
      have hguard : ¬(GetFreeDeviceID st.fdmap < 0 ∨
          (IPC_MAX_FDS : Int) ≤ GetFreeDeviceID st.fdmap) := by
        rw [hgf]
        rw [hlen] at hilt
        push_neg
        exact ⟨Int.ofNat_nonneg i, by exact_mod_cast hilt⟩
      have hres : resolveDevice st "/dev/es" (GetFreeDeviceID st.fdmap).toNat = none := by
        unfold resolveDevice GetUnusedESDevice
        rw [if_pos rfl]
        rw [List.find?_eq_none]
        intro d hd
        simp [hes d hd]
      unfold OpenDevice
      rw [if_neg hguard, hres]
      simp

/-- Witness for C6 at a concrete state with a free table and a busy
session sub-pool. -/
theorem openDevice_es_sessions_exhausted_witness :
    OpenDevice stEsBusy "/dev/es" 0 = (IPC_EESEXHAUSTED, stEsBusy, []) ∧
    IPC_EESEXHAUSTED ≠ FS_EFDEXHAUSTED :=
  openDevice_es_sessions_exhausted stEsBusy 0 rfl (by decide) (by decide)

/-- C10: when the 24-slot descriptor table is full, an open of the
content-management path fails with the descriptor-table-exhausted code,
not the sessions-exhausted code: the general free-slot check precedes the
session sub-pool check. -/
theorem openDevice_table_full_precedes_sessions (st : IPCState) (openCode : Int)
    (hfull : freeSlots st.fdmap = 0) :
    OpenDevice st "/dev/es" openCode = (FS_EFDEXHAUSTED, st, []) ∧
    FS_EFDEXHAUSTED ≠ IPC_EESEXHAUSTED := by
  refine ⟨?_, by decide⟩
  have hf : firstFreeIdx st.fdmap = none := (firstFreeIdx_eq_none_iff st.fdmap).2 hfull
  unfold OpenDevice
  have hgf : GetFreeDeviceID st.fdmap = -1 := by
    unfold GetFreeDeviceID
    rw [hf]
  rw [hgf]
  simp

/-- Witness for C10 at a concrete full table whose session sub-pool is
also busy (the table code still wins). -/
theorem openDevice_table_full_precedes_sessions_witness :
    OpenDevice stFullEsBusy "/dev/es" 0 = (FS_EFDEXHAUSTED, stFullEsBusy, []) ∧
    FS_EFDEXHAUSTED ≠ IPC_EESEXHAUSTED :=
  openDevice_table_full_precedes_sessions stFullEsBusy 0 (by decide)

/-- C7: EnqueueReply performs the guest-visible write-back immediately at
enqueue time and in this exact layout: the return value at the request
address plus 4, the echoed original command kind at the address plus 8,
and the reply tag 8 overwriting the command-kind field at offset 0; the
only deferred action is the scheduler event that, after the given delay,
inserts the bare (flag-free) address, which the enqueue callback routes
into the reply queue. -/
theorem enqueueReply_immediate_writeback (req : Request) (rv : Int) (d : Nat) :
    EnqueueReply req rv d =
      [Ev.memWrite (req.address + 4) (u32ofInt rv),
       Ev.memWrite (req.address + 8) req.command,
       Ev.memWrite req.address IPC_REPLY,
       Ev.schedule d req.address] ∧
    IPC_REPLY = 8 ∧
    (∀ (st : SysState) (a : Nat),
      a &&& ENQUEUE_ACKNOWLEDGEMENT_FLAG = 0 →
      a &&& ENQUEUE_REQUEST_FLAG = 0 →
      EnqueueEventPush st a = { st with replyQueue := st.replyQueue ++ [a % 2 ^ 32] }) := by
  refine ⟨rfl, rfl, ?_⟩
  intro st a h1 h2
  unfold EnqueueEventPush
  simp [h1, h2]

/-- Witness for C7 at a concrete flag-free address. -/
theorem enqueueReply_immediate_writeback_witness :
    EnqueueEventPush sysEmpty 4096 =
      { sysEmpty with replyQueue := sysEmpty.replyQueue ++ [4096 % 2 ^ 32] } :=
  (enqueueReply_immediate_writeback reqCloseUnopened 0 0).2.2 sysEmpty 4096
    (by decide) (by decide)

/-- C8 counterexample: Shutdown does NOT leave all three queues empty; at
a concrete state with a pending acknowledgement, the acknowledgement queue
survives teardown. -/
theorem shutdown_ack_queue_counterexample :
    ¬((Shutdown sysAckPending).1.ackQueue = []) := by
  decide

/-- C8 amended: Shutdown is exactly a hard Reset: it closes every open
descriptor (one close capability call per occupied slot, in slot order)
and clears every slot, destroys the device registry, resets the last-reply
time, and empties the request and reply queues; the acknowledgement queue
is left untouched and retains its prior contents. -/
theorem shutdown_is_hard_reset (st : SysState) :
    Shutdown st = Reset true st ∧
    (Shutdown st).2 =
      st.ipc.fdmap.filterMap (fun o => o.map (fun d => CapCall.closeCall d.name)) ∧
    (Shutdown st).1.ipc.fdmap = st.ipc.fdmap.map (fun _ => none) ∧
    (Shutdown st).1.ipc.registry = [] ∧
    (Shutdown st).1.lastReplyTime = 0 ∧
    (Shutdown st).1.requestQueue = [] ∧
    (Shutdown st).1.replyQueue = [] ∧
    (Shutdown st).1.ackQueue = st.ackQueue :=
  ⟨rfl, rfl, rfl, rfl, rfl, rfl, rfl, rfl⟩

/-- C9 counterexample: a request whose command kind is outside the defined
set does NOT reach the programming-error assertion when its handle is
unmapped; at a concrete state the dispatch returns the recoverable
invalid-argument result with the assertion flag clear. -/
theorem undefined_command_no_assert_counterexample :
    (HandleCommand ipcEmpty 0 capZero reqBadCmdNoFd).assertFailed = false ∧
    (HandleCommand ipcEmpty 0 capZero reqBadCmdNoFd).result.return_value = IPC_EINVAL := by
  exact ⟨rfl, rfl⟩

/-- C9 amended: a request whose command kind is outside the defined set
{1..7} fires the programming-error assertion of the default dispatch
branch whenever its handle resolves to an open device (the invalid-handle
check precedes the switch, so an unmapped handle instead returns the
recoverable invalid-argument code without asserting); for every defined
command kind the assertion branch is unreachable. -/
theorem undefined_command_asserts (st : IPCState) (openCode : Int)
    (cap : Device → Nat → IPCCommandResult) (req : Request) :
    (req.command ∉ [IPC_CMD_OPEN, IPC_CMD_CLOSE, IPC_CMD_READ, IPC_CMD_WRITE,
        IPC_CMD_SEEK, IPC_CMD_IOCTL, IPC_CMD_IOCTLV] →
      (∀ d, fdLookup st req.fd = some d →
        (HandleCommand st openCode cap req).assertFailed = true)) ∧
    (req.command ∈ [IPC_CMD_OPEN, IPC_CMD_CLOSE, IPC_CMD_READ, IPC_CMD_WRITE,
        IPC_CMD_SEEK, IPC_CMD_IOCTL, IPC_CMD_IOCTLV] →
      (HandleCommand st openCode cap req).assertFailed = false) := by
  constructor
  · intro hnot d hd
    simp only [List.mem_cons, List.not_mem_nil, or_false, not_or] at hnot
    obtain ⟨h1, h2, h3, h4, h5, h6, h7⟩ := hnot
    unfold HandleCommand
    rw [if_neg h1, hd]
    dsimp only
    rw [if_neg h2, if_neg h3, if_neg h4, if_neg h5, if_neg h6, if_neg h7]
  · intro hmem
    simp only [List.mem_cons, List.not_mem_nil, or_false] at hmem
    unfold HandleCommand
    rcases hmem with h | h | h | h | h | h | h <;> rw [h] <;>
      cases hl : fdLookup st req.fd <;>
      simp [IPC_CMD_OPEN, IPC_CMD_CLOSE, IPC_CMD_READ, IPC_CMD_WRITE, IPC_CMD_SEEK,
        IPC_CMD_IOCTL, IPC_CMD_IOCTLV]

/-- Every prepare event is neither a registry hook nor a slot
reconstruction. -/
theorem prepareEvents_shape (fdmap : List (Option Device)) :
    ∀ x ∈ prepareEvents fdmap, x.isRestoreSlot = false := by
  intro x hx
  simp only [prepareEvents, List.mem_filterMap] at hx
  obtain ⟨p, _, hp⟩ := hx
  cases h2 : p.2 with
  | none => rw [h2] at hp; simp at hp
  | some d =>
      rw [h2] at hp
      simp at hp
      subst hp
      rfl

/-- Every registry-hook event is not a slot reconstruction. -/
theorem hookEvents_shape (registry : List Device) :
    ∀ x ∈ hookEvents registry, x.isRestoreSlot = false := by
  intro x hx
  simp only [hookEvents, List.mem_map] at hx
  obtain ⟨d, _, rfl⟩ := hx
  rfl

/-- Every slot-reconstruction event is not a registry hook. -/
theorem restoreEvents_shape (saved : List SavedSlot) :
    ∀ x ∈ restoreEvents saved, x.isHook = false := by
  intro x hx
  simp only [restoreEvents, List.mem_filterMap] at hx
  obtain ⟨p, _, hp⟩ := hx
  cases h2 : p.2 with
  | emptySlot => rw [h2] at hp; simp at hp
  | staticDev id =>
      rw [h2] at hp
      simp at hp
      subst hp
      rfl
  | fileIo path =>
      rw [h2] at hp
      simp at hp
      subst hp
      rfl

/-- Every ES-pool reconstruction event is not a registry hook. -/
theorem esRestoreEvents_shape (savedES : List Nat) :
    ∀ x ∈ esRestoreEvents savedES, x.isHook = false := by
  intro x hx
  simp only [esRestoreEvents, List.mem_map] at hx
  obtain ⟨p, _, rfl⟩ := hx
  rfl

/-- In a trace split into a left part free of slot reconstructions and a
right part free of registry hooks, every hook position precedes every
slot-reconstruction position. -/
theorem hook_lt_restore_split (l1 l2 : List DSEvent)
    (h1 : ∀ x ∈ l1, x.isRestoreSlot = false)
    (h2 : ∀ x ∈ l2, x.isHook = false) :
    ∀ (i j : Nat) (ei ej : DSEvent),
      (l1 ++ l2)[i]? = some ei → (l1 ++ l2)[j]? = some ej →
      ei.isHook = true → ej.isRestoreSlot = true → i < j := by
  intro i j ei ej hi hj hhook hrest
  have hilt : i < l1.length := by
    by_contra hcon
    push_neg at hcon
    rw [List.getElem?_append_right hcon] at hi
    have hmem : ei ∈ l2 := List.getElem?_mem hi
    rw [h2 ei hmem] at hhook
    cases hhook
  have hjge : l1.length ≤ j := by
    by_contra hcon
    push_neg at hcon
    rw [List.getElem?_append_left hcon] at hj
    have hmem : ej ∈ l1 := List.getElem?_mem hj
    rw [h1 ej hmem] at hrest
    cases hrest
  omega

/-- C4 counterexample: the restore path does NOT reconstruct the
descriptor-table bindings before invoking the device state hooks over the
registry; at a concrete restore input a registry hook event strictly
precedes a slot-reconstruction event. -/
theorem doState_restore_order_counterexample :
    ¬(∀ (i j : Nat) (ei ej : DSEvent),
        (DoStateRead stFS dsSaved []).2.2[i]? = some ei →
        (DoStateRead stFS dsSaved []).2.2[j]? = some ej →
        ei.isRestoreSlot = true → ej.isHook = true → i < j) := by
  intro h
  have := h 1 0 (DSEvent.restoreSlot 0) (DSEvent.deviceHook 3)
    (by decide) (by decide) (by decide) (by decide)
  omega

/-- C4 amended: during state restore the registry-wide device state hooks
all run BEFORE any descriptor-table slot binding is reconstructed (the
reverse of the claimed order): in the restore trace every registry hook
position strictly precedes every slot-reconstruction position. -/
theorem doState_hooks_before_slot_restore (st : IPCState) (saved : List SavedSlot)
    (savedES : List Nat) :
    ∀ (i j : Nat) (ei ej : DSEvent),
      (DoStateRead st saved savedES).2.2[i]? = some ei →
      (DoStateRead st saved savedES).2.2[j]? = some ej →
      ei.isHook = true → ej.isRestoreSlot = true → i < j := by
  have hsplit : (DoStateRead st saved savedES).2.2 =
      (prepareEvents st.fdmap ++ hookEvents st.registry) ++
        (restoreEvents saved ++ esRestoreEvents savedES) := by
    show DoStateReadEvents st saved savedES = _
    unfold DoStateReadEvents
    rw [List.append_assoc]
  rw [hsplit]
  apply hook_lt_restore_split
  · intro x hx
    rcases List.mem_append.1 hx with hm | hm
    · exact prepareEvents_shape st.fdmap x hm
    · exact hookEvents_shape st.registry x hm
  · intro x hx
    rcases List.mem_append.1 hx with hm | hm
    · exact restoreEvents_shape saved x hm
    · exact esRestoreEvents_shape savedES x hm

/-- Witness for C4 amended at the concrete restore input: the hook at
position 0 precedes the slot reconstruction at position 1. -/
theorem doState_hooks_before_slot_restore_witness : 0 < 1 :=
  doState_hooks_before_slot_restore stFS dsSaved [] 0 1
    (DSEvent.deviceHook 3) (DSEvent.restoreSlot 0)
    (by decide) (by decide) (by decide) (by decide)

/-- Witness for C9 amended: the assertion fires for command 9 on an open
handle, and stays clear for a defined command. -/
theorem undefined_command_asserts_witness :
    (HandleCommand stFull 0 capZero { reqBadCmdNoFd with fd := 0 }).assertFailed = true ∧
    (HandleCommand stFull 0 capZero reqCloseUnopened).assertFailed = false :=
  ⟨(undefined_command_asserts stFull 0 capZero { reqBadCmdNoFd with fd := 0 }).1
      (by decide) fsDev (by decide),
   (undefined_command_asserts stFull 0 capZero reqCloseUnopened).2 (by decide)⟩

end IOSHLE

